import Mathlib

/-!
Verification of the speaker-recognition core of the voice_server repository.

The Go sources in internal/speaker (manager.go and handler.go) are shallowly
embedded. Go strings become byte lists (GoStr), machine integers become Nat
or Int with explicit reduction modulo 2 ^ 64 where Go wraps, float32 scores
and samples become exact rationals (the properties under study depend only on
comparisons and on which expression is computed, not on rounding), and the
external collaborators that the specification declares out of scope (the
Qdrant store, the TEN-VAD classifier, the sherpa embedding extractor) are
modelled through their contracts as explicit parameters or oracle arguments.
-/

namespace VoiceServer

/-- A Go string, viewed as its byte slice. The empty Go string is the empty
list. -/
abbrev GoStr := List Nat

/-! ## Point identity: FNV-1a 64 over the composite key -/

/-- FNV-1a 64-bit offset basis, the initial state of Go fnv.New64a. -/
def fnvOffsetBasis : Nat := 14695981039346656037

/-- FNV-1a 64-bit prime. -/
def fnvPrime : Nat := 1099511628211

/-- One byte step of FNV-1a: xor the byte into the state, then multiply by
the prime; Go hash/fnv works in uint64, hence the reduction modulo 2 ^ 64. -/
def fnv1aStep (h b : Nat) : Nat := ((h ^^^ b) * fnvPrime) % 2 ^ 64

/-- FNV-1a 64-bit digest of a byte sequence, as computed by Go fnv.New64a
followed by Write and Sum64. -/
def fnv1a64 (bytes : List Nat) : Nat := bytes.foldl fnv1aStep fnvOffsetBasis

/-- Decimal ASCII rendering of a natural number, as produced by the Go verb
%d (sample_index is never negative in the source: it is a point count or the
fallback 0). -/
def decimalBytes (n : Nat) : GoStr := (Nat.toDigits 10 n).map Char.toNat

/-- The byte 58, the ASCII colon separating the key components. -/
def colonByte : Nat := 58

/-- The composite key built by generatePointID in handler.go with
fmt.Sprintf on the verb string %s:%s:%s:%d. -/
def pointKeyBytes (uid agentID speakerID : GoStr) (sampleIndex : Nat) : GoStr :=
  uid ++ [colonByte] ++ agentID ++ [colonByte] ++ speakerID ++ [colonByte]
    ++ decimalBytes sampleIndex

/-- generatePointID from handler.go: the FNV-1a 64-bit hash of the composite
key. -/
def generatePointID (uid agentID speakerID : GoStr) (sampleIndex : Nat) : Nat :=
  fnv1a64 (pointKeyBytes uid agentID speakerID sampleIndex)

/-- A point persisted in the vector store: numeric ID, vector, and the full
payload written by QdrantVectorDB.Insert. -/
structure StoredPoint where
  id : Nat
  vector : List ℚ
  uid : GoStr
  agentId : GoStr
  speakerId : GoStr
  speakerName : GoStr
  uuid : GoStr
  sampleIndex : Nat
  createdAt : Int
  updatedAt : Int
deriving DecidableEq

/-- Modelled from the spec: the external vector database (out of scope for
the source) is a key/vector/payload store whose upsert overwrites any
existing point carrying the same ID. -/
def upsertPoint (store : List StoredPoint) (p : StoredPoint) : List StoredPoint :=
  store.filter (fun q => q.id != p.id) ++ [p]

/-- QdrantVectorDB.Insert from handler.go: derive the point ID from the
tuple (uid, agent_id, speaker_id, sample_index), build the point with the
full payload, and upsert it. The collection bootstrap and the RPC transport
are external. -/
def qdrantInsert (store : List StoredPoint)
    (uid agentID speakerID speakerName uuid : GoStr)
    (embedding : List ℚ) (sampleIndex : Nat) (createdAt updatedAt : Int) :
    List StoredPoint :=
  upsertPoint store
    { id := generatePointID uid agentID speakerID sampleIndex
      vector := embedding
      uid := uid
      agentId := agentID
      speakerId := speakerID
      speakerName := speakerName
      uuid := uuid
      sampleIndex := sampleIndex
      createdAt := createdAt
      updatedAt := updatedAt }

/-! ## Store filters and search queries -/

/-- A payload field that a store filter can match on. -/
inductive FieldKey
  | uid
  | agentId
  | speakerId
  | speakerName
deriving DecidableEq

/-- One equality predicate of a Must filter, as built by qdrant.NewMatch in
handler.go: the named payload field must equal the given string. -/
structure MatchCond where
  key : FieldKey
  value : GoStr
deriving DecidableEq

/-- The condition list built by SearchWithOptionalFilters in handler.go: one
equality predicate is appended for each dimension among uid, agent_id,
speaker_id, speaker_name that is a non-empty string, in that order. -/
def buildOptionalConditions (uid agentID speakerID speakerName : GoStr) :
    List MatchCond :=
  (if uid ≠ [] then [⟨FieldKey.uid, uid⟩] else [])
    ++ (if agentID ≠ [] then [⟨FieldKey.agentId, agentID⟩] else [])
    ++ (if speakerID ≠ [] then [⟨FieldKey.speakerId, speakerID⟩] else [])
    ++ (if speakerName ≠ [] then [⟨FieldKey.speakerName, speakerName⟩] else [])

/-- The filter attached to the optional-filter query: handler.go leaves the
filter nil (none) when the condition list is empty, and otherwise submits a
Must conjunction of the collected conditions. -/
def buildOptionalFilter (uid agentID speakerID speakerName : GoStr) :
    Option (List MatchCond) :=
  let conditions := buildOptionalConditions uid agentID speakerID speakerName
  if conditions.length > 0 then some conditions else none

/-- The condition list built by SearchWithFilter (the verify path) in
handler.go: uid and speaker_id always, agent_id only when non-empty. -/
def buildStrictConditions (uid agentID speakerID : GoStr) : List MatchCond :=
  [⟨FieldKey.uid, uid⟩, ⟨FieldKey.speakerId, speakerID⟩]
    ++ (if agentID ≠ [] then [⟨FieldKey.agentId, agentID⟩] else [])

/-- The payload field of a stored point selected by a field key. -/
def payloadField (p : StoredPoint) : FieldKey → GoStr
  | FieldKey.uid => p.uid
  | FieldKey.agentId => p.agentId
  | FieldKey.speakerId => p.speakerId
  | FieldKey.speakerName => p.speakerName

/-- Modelled from the spec: the external store evaluates one match condition
as equality between the named payload field and the condition value. -/
def matchesCondition (p : StoredPoint) (c : MatchCond) : Bool :=
  payloadField p c.key == c.value

/-- Modelled from the spec: the external store applies a nil filter to every
point, and a Must filter as the conjunction of its conditions. -/
def matchesFilter (p : StoredPoint) : Option (List MatchCond) → Bool
  | none => true
  | some conditions => conditions.all (matchesCondition p)

/-- The sum of squares accumulated by the norm loop of normalizeVector in
handler.go. -/
def sumSquares (v : List ℚ) : ℚ := (v.map (fun x => x * x)).sum

/-- normalizeVector from handler.go. The square root is float arithmetic on
an opaque library call, so it is passed as a parameter; every claim about
this function holds for an arbitrary square-root evaluator, and witnesses
instantiate it on inputs where the true square root is rational. A zero norm
returns the input unchanged; otherwise every component is divided by the
norm. -/
def normalizeVector (sqrtQ : ℚ → ℚ) (v : List ℚ) : List ℚ :=
  let norm := sqrtQ (sumSquares v)
  if norm = 0 then v else v.map (fun x => x / norm)

/-- The request submitted to the store by a search: the filter, the query
vector actually sent, and the limit. The RPC itself is external. -/
structure QueryRequest where
  filter : Option (List MatchCond)
  queryVector : List ℚ
  limit : Nat
deriving DecidableEq

/-- The query built by SearchWithOptionalFilters in handler.go: optional
filter, client-side L2-normalised query vector, limit of topK with a floor
of one. -/
def mkOptionalQuery (sqrtQ : ℚ → ℚ) (uid agentID speakerID speakerName : GoStr)
    (queryEmbedding : List ℚ) (topK : Nat) : QueryRequest :=
  { filter := buildOptionalFilter uid agentID speakerID speakerName
    queryVector := normalizeVector sqrtQ queryEmbedding
    limit := if topK = 0 then 1 else topK }

/-- The query built by SearchWithFilter in handler.go: strict filter, the
raw query embedding submitted as-is (the source relies on the store to
normalise), limit of topK with a floor of one. -/
def mkStrictQuery (uid agentID speakerID : GoStr)
    (queryEmbedding : List ℚ) (topK : Nat) : QueryRequest :=
  { filter := some (buildStrictConditions uid agentID speakerID)
    queryVector := queryEmbedding
    limit := if topK = 0 then 1 else topK }

/-! ## Search result conversion -/

/-- A scored point as returned by the store Query RPC: payload presence flag,
the payload fields read by the conversion loop, and the raw score. -/
structure ScoredPoint where
  hasPayload : Bool
  speakerId : GoStr
  speakerName : GoStr
  sampleIndex : Int
  score : ℚ
deriving DecidableEq

/-- A converted search result as returned by the store wrapper. -/
structure SearchResult where
  speakerId : GoStr
  speakerName : GoStr
  confidence : ℚ
  distance : ℚ
  sampleIndex : Int
deriving DecidableEq

/-- The score clamp written inline in both conversion loops of handler.go:
scores below minus one become minus one, scores above one become one, all
others pass through unchanged. -/
def clampScore (score : ℚ) : ℚ :=
  if score < -1 then -1 else if score > 1 then 1 else score

/-- The result conversion loop shared verbatim by SearchWithOptionalFilters
and SearchWithFilter in handler.go: skip points without payload, clamp the
score to obtain the confidence, skip candidates whose confidence is below
the threshold, and emit the result with distance one minus confidence. -/
def convertSearchResults (points : List ScoredPoint) (threshold : ℚ) :
    List SearchResult :=
  points.filterMap (fun pt =>
    if pt.hasPayload = false then none
    else
      let confidence := clampScore pt.score
      if confidence < threshold then none
      else some
        { speakerId := pt.speakerId
          speakerName := pt.speakerName
          confidence := confidence
          distance := 1 - confidence
          sampleIndex := pt.sampleIndex })

/-! ## VAD trimming with edge preservation -/

/-- Per-frame record kept by filterSilenceWithVADKeepEdges in manager.go:
start index, end index, and the verdict of the VAD classifier. -/
structure FrameInfo where
  startIdx : Nat
  endIdx : Nat
  isSpeech : Bool
deriving DecidableEq

/-- The framing loop of manager.go: starting at index i, cut frames of hop
samples (the last frame may be short) and classify each. The TEN-VAD
classifier is external and opaque, so its verdict is an oracle parameter on
the frame bounds. The fuel argument bounds the iteration count; the caller
passes the buffer length, which suffices because the loop advances by hop at
least one per step (the hop size is a positive configuration constant; a
zero hop would not terminate in Go either). -/
def vadClassifyFramesAux (vad : Nat → Nat → Bool) (hop len : Nat) :
    Nat → Nat → List FrameInfo
  | 0, _ => []
  | fuel + 1, i =>
    if i < len then
      { startIdx := i, endIdx := min (i + hop) len,
        isSpeech := vad i (min (i + hop) len) }
        :: vadClassifyFramesAux vad hop len fuel (i + hop)
    else []

/-- All classified frames of a buffer of the given length. -/
def vadClassifyFrames (vad : Nat → Nat → Bool) (hop len : Nat) : List FrameInfo :=
  vadClassifyFramesAux vad hop len len 0

/-- The first speech frame, as located by the scan over frames in
manager.go. -/
def firstSpeechFrame (frames : List FrameInfo) : Option FrameInfo :=
  frames.find? (fun f => f.isSpeech)

/-- The last speech frame, as located by the same scan. -/
def lastSpeechFrame (frames : List FrameInfo) : Option FrameInfo :=
  frames.reverse.find? (fun f => f.isSpeech)

/-- filterSilenceWithVADKeepEdges from manager.go. The Go source computes
the edge width as int(float64(sampleRate) * 0.1), which truncates toward
zero; for every realistic sample rate (anything below 2 ^ 50) this equals
the floor of sampleRate / 10, embedded here as natural division. When no
speech frame exists an empty buffer is returned; otherwise the source slices
the input from the first speech frame start minus the edge width (clamped at
zero by an explicit guard, which natural subtraction reproduces) to the last
speech frame end plus the edge width (clamped at the buffer length). -/
def filterSilenceWithVADKeepEdges {α : Type} (vad : Nat → Nat → Bool)
    (hop sampleRate : Nat) (audioData : List α) : List α :=
  let silenceSamples := sampleRate / 10
  let frames := vadClassifyFrames vad hop audioData.length
  match firstSpeechFrame frames, lastSpeechFrame frames with
  | some ff, some lf =>
    let startIdx := ff.startIdx - silenceSamples
    let endIdx := min (lf.endIdx + silenceSamples) audioData.length
    (audioData.drop startIdx).take (endIdx - startIdx)
  | _, _ => []

/-- The edge-sample count as the specification words it: the rounding of
sampleRate times 100 over 1000, with halves rounded up. This definition
follows the words of the spec, for comparison against the source, which
truncates instead. -/
def specEdgeSamples (sampleRate : Nat) : Nat := (sampleRate * 100 + 500) / 1000

/-! ## Streaming identification sessions -/

/-- The observable state of a StreamingIdentifier from manager.go: whether
the accumulator stream handle is still held (stream not nil), whether the
session is finished, and how many times DeleteOnlineStream has been invoked
on the handle owned by this session. -/
structure StreamingState where
  streamHeld : Bool
  isFinished : Bool
  deleteCount : Nat
deriving DecidableEq

/-- cleanup from manager.go: when the handle is still held, delete it once
and record the stream as nil; otherwise do nothing. -/
def cleanupStream (s : StreamingState) : StreamingState :=
  if s.streamHeld = true then
    { streamHeld := false, isFinished := s.isFinished,
      deleteCount := s.deleteCount + 1 }
  else s

/-- The identification result returned by the manager and the streaming
session. -/
structure IdentifyResult where
  identified : Bool
  speakerId : GoStr
  speakerName : GoStr
  confidence : ℚ
  threshold : ℚ
deriving DecidableEq

/-- AcceptAudio from manager.go: rejected once finished, rejected when the
handle is gone, otherwise the chunk is pushed into the native accumulator
(whose contents the observable state does not track) and the state is
unchanged. -/
def acceptAudio (_chunk : List ℚ) (s : StreamingState) :
    Except String StreamingState :=
  if s.isFinished = true then Except.error "stream already finished"
  else if s.streamHeld = false then Except.error "stream is nil"
  else Except.ok s

/-- FinishAndIdentify from manager.go. The extractor readiness, the computed
embedding and the store search outcome are external and enter as oracle
arguments. The source marks the session finished right after InputFinished,
before any failure can occur, and every subsequent path, success or error,
runs cleanup. -/
def finishAndIdentify (isReady : Bool) (embedding : List ℚ)
    (searchOutcome : Except String (List SearchResult))
    (managerThreshold sessionThreshold : ℚ) (s : StreamingState) :
    Except String IdentifyResult × StreamingState :=
  if s.isFinished = true then (Except.error "stream already finished", s)
  else if s.streamHeld = false then (Except.error "stream is nil", s)
  else
    let s1 : StreamingState :=
      { streamHeld := s.streamHeld, isFinished := true,
        deleteCount := s.deleteCount }
    if isReady = false then
      (Except.error "insufficient audio data for embedding extraction",
        cleanupStream s1)
    else if embedding.length = 0 then
      (Except.error "failed to extract embedding", cleanupStream s1)
    else
      let useThreshold :=
        if sessionThreshold > 0 then sessionThreshold else managerThreshold
      match searchOutcome with
      | Except.error _ =>
          (Except.error "failed to search in vector database", cleanupStream s1)
      | Except.ok results =>
          match results with
          | [] =>
              (Except.ok
                { identified := false, speakerId := [], speakerName := [],
                  confidence := 0, threshold := useThreshold },
                cleanupStream s1)
          | best :: _ =>
              (Except.ok
                { identified := true, speakerId := best.speakerId,
                  speakerName := best.speakerName,
                  confidence := best.confidence, threshold := useThreshold },
                cleanupStream s1)

/-- Close from manager.go: take the session mutex and run cleanup; it never
fails. -/
def closeStream (s : StreamingState) : StreamingState := cleanupStream s

/-- One operation a transport can invoke on a streaming session. -/
inductive SessionOp
  | acceptOp (chunk : List ℚ)
  | finishOp (isReady : Bool) (embedding : List ℚ)
      (searchOutcome : Except String (List SearchResult))
      (managerThreshold sessionThreshold : ℚ)
  | closeOp

/-- The state reached after one session operation. -/
def applySessionOp (s : StreamingState) : SessionOp → StreamingState
  | SessionOp.acceptOp _ => s
  | SessionOp.finishOp r e so mt st => (finishAndIdentify r e so mt st s).2
  | SessionOp.closeOp => closeStream s

/-- The state reached after a sequence of session operations. -/
def applySessionOps (s : StreamingState) (ops : List SessionOp) : StreamingState :=
  ops.foldl applySessionOp s

/-! ## Sample counting, enrolment, and the list operation -/

/-- GetSpeakerSampleCount from handler.go: scroll the points passing the
strict filter (uid and speaker_id always, agent_id only when non-empty) with
a limit of ten thousand, and return how many points came back. -/
def getSpeakerSampleCount (store : List StoredPoint)
    (uid agentID speakerID : GoStr) : Nat :=
  ((store.filter (fun p =>
      matchesFilter p (some (buildStrictConditions uid agentID speakerID)))).take
    10000).length

/-- RegisterSpeaker from manager.go: validate uid, agent_id and uuid, extract
the embedding (external, an oracle outcome), check its dimension, query the
sample count falling back to zero when that RPC fails, and insert. The two
store RPC outcomes enter as oracle booleans because network failure is
external; when the count RPC succeeds, the store contents determine the
count. -/
def registerSpeaker (embeddingDim : Nat)
    (extractOutcome : Except String (List ℚ))
    (countRpcOk insertRpcOk : Bool) (store : List StoredPoint)
    (uid agentID speakerID speakerName uuid : GoStr) (now : Int) :
    Except String (List StoredPoint) :=
  if uid = [] then Except.error "uid is required"
  else if agentID = [] then Except.error "agent_id is required"
  else if uuid = [] then Except.error "uuid is required"
  else
    match extractOutcome with
    | Except.error _ => Except.error "failed to extract embedding"
    | Except.ok embedding =>
        if embedding.length ≠ embeddingDim then
          Except.error "embedding dimension mismatch"
        else
          let sampleIndex :=
            if countRpcOk = true then
              getSpeakerSampleCount store uid agentID speakerID
            else 0
          if insertRpcOk = true then
            Except.ok (qdrantInsert store uid agentID speakerID speakerName
              uuid embedding sampleIndex now now)
          else Except.error "failed to insert to vector database"

/-- The aggregated per-speaker record returned by the list operation. -/
structure SpeakerInfo where
  id : GoStr
  name : GoStr
  uuid : GoStr
  agentId : GoStr
  sampleCount : Nat
  createdAt : Int
  updatedAt : Int
deriving DecidableEq

/-- Manager.GetAllSpeakers from manager.go: on a store RPC failure the error
is logged and an empty slice is returned, so the caller cannot tell a
failure from an empty tenant. -/
def managerGetAllSpeakers (rpcOutcome : Except String (List SpeakerInfo)) :
    List SpeakerInfo :=
  match rpcOutcome with
  | Except.error _ => []
  | Except.ok speakers => speakers

/-- The HTTP response of the list route. -/
inductive ListResponse
  | badRequest (msg : String)
  | okResponse (uid agentId : GoStr) (speakers : List SpeakerInfo) (total : Nat)
deriving DecidableEq

/-- Handler.GetAllSpeakers from handler.go: status 400 when uid is missing,
otherwise a status 200 response carrying the manager result and its
length. -/
def handleGetAllSpeakers (uid agentID : GoStr)
    (rpcOutcome : Except String (List SpeakerInfo)) : ListResponse :=
  if uid = [] then
    ListResponse.badRequest
      "uid is required (X-User-ID header, uid query param, or uid form field)"
  else
    let speakers := managerGetAllSpeakers rpcOutcome
    ListResponse.okResponse uid agentID speakers speakers.length

/-- IdentifySpeaker from manager.go, with the extraction and the store
search as oracle outcomes: a failed search is wrapped and surfaced as an
error, and the per-call threshold overrides the default only when positive. -/
def identifySpeaker (defaultThreshold : ℚ) (thresholdArg : Option ℚ)
    (extractOutcome : Except String (List ℚ))
    (searchOutcome : Except String (List SearchResult)) :
    Except String IdentifyResult :=
  let useThreshold :=
    match thresholdArg with
    | some t => if t > 0 then t else defaultThreshold
    | none => defaultThreshold
  match extractOutcome with
  | Except.error _ => Except.error "failed to extract embedding"
  | Except.ok _ =>
      match searchOutcome with
      | Except.error _ => Except.error "failed to search in vector database"
      | Except.ok results =>
          match results with
          | [] =>
              Except.ok
                { identified := false, speakerId := [], speakerName := [],
                  confidence := 0, threshold := useThreshold }
          | best :: _ =>
              Except.ok
                { identified := true, speakerId := best.speakerId,
                  speakerName := best.speakerName,
                  confidence := best.confidence, threshold := useThreshold }

/-- The verification result returned by VerifySpeaker. -/
structure VerifyResult where
  speakerId : GoStr
  speakerName : GoStr
  verified : Bool
  confidence : ℚ
  threshold : ℚ
deriving DecidableEq

/-- VerifySpeaker from manager.go, with the extraction, the strict-filter
search, and the payload-only speaker lookup as oracle outcomes (the filter
arguments and the audio are absorbed by those oracles): uid is required, a
failed search is wrapped and surfaced as an error, a top hit verifies, and
on no hit the speaker lookup recovers the name or fails with not found. -/
def verifySpeaker (threshold : ℚ) (uid speakerID : GoStr)
    (extractOutcome : Except String (List ℚ))
    (searchOutcome : Except String (List SearchResult))
    (speakerInfoOutcome : Except String SpeakerInfo) :
    Except String VerifyResult :=
  if uid = [] then Except.error "uid is required"
  else
    match extractOutcome with
    | Except.error _ => Except.error "failed to extract embedding"
    | Except.ok _ =>
        match searchOutcome with
        | Except.error _ => Except.error "failed to search in vector database"
        | Except.ok results =>
            match results with
            | best :: _ =>
                Except.ok
                  { speakerId := speakerID, speakerName := best.speakerName,
                    verified := true, confidence := best.confidence,
                    threshold := threshold }
            | [] =>
                match speakerInfoOutcome with
                | Except.error _ => Except.error "speaker not found"
                | Except.ok info =>
                    Except.ok
                      { speakerId := speakerID, speakerName := info.name,
                        verified := false, confidence := 0,
                        threshold := threshold }

/-- DeleteSpeaker from manager.go, with the store delete RPC as an oracle
outcome: uid is required, and a failed delete is wrapped and surfaced as an
error. -/
def managerDeleteSpeaker (uid : GoStr) (deleteOutcome : Except String Unit) :
    Except String Unit :=
  if uid = [] then Except.error "uid is required"
  else
    match deleteOutcome with
    | Except.error _ => Except.error "failed to delete from vector database"
    | Except.ok _ => Except.ok ()

/-- DeleteSpeakerByUUID from manager.go: uid and uuid are required, and a
failed delete is wrapped and surfaced as an error. -/
def managerDeleteSpeakerByUUID (uid uuid : GoStr)
    (deleteOutcome : Except String Unit) : Except String Unit :=
  if uid = [] then Except.error "uid is required"
  else if uuid = [] then Except.error "uuid is required"
  else
    match deleteOutcome with
    | Except.error _ => Except.error "failed to delete from vector database"
    | Except.ok _ => Except.ok ()

/-- The statistics record returned by GetDatabaseStats. -/
structure DatabaseStats where
  totalSpeakers : Nat
  totalSamples : Nat
  embeddingDim : Nat
  threshold : ℚ
  version : String
  updatedAt : Int
deriving DecidableEq

/-- GetDatabaseStats from manager.go (GetStats reads this record): the
function has no error channel; on a store RPC failure it logs and returns
the default zero statistics, otherwise it aggregates the speaker list. The
clock read is a parameter. -/
def getDatabaseStats (embeddingDim : Nat) (threshold : ℚ) (now : Int)
    (rpcOutcome : Except String (List SpeakerInfo)) : DatabaseStats :=
  match rpcOutcome with
  | Except.error _ =>
      { totalSpeakers := 0, totalSamples := 0, embeddingDim := embeddingDim,
        threshold := threshold, version := "2.0.0", updatedAt := now }
  | Except.ok speakers =>
      { totalSpeakers := speakers.length,
        totalSamples := (speakers.map (fun sp => sp.sampleCount)).sum,
        embeddingDim := embeddingDim, threshold := threshold,
        version := "2.0.0", updatedAt := now }

/-! ## Theorems -/

/-- Filtering away an ID leaves no point counted under that ID. -/
theorem countP_id_filter_ne (store : List StoredPoint) (i : Nat) :
    (store.filter (fun r => r.id != i)).countP (fun r => r.id == i) = 0 := by
  rw [List.countP_eq_zero]
  intro a ha
  rw [List.mem_filter] at ha
  simpa using ha.2

/-- C1: the point ID written at upsert is the 64-bit FNV-1a hash of the four
tuple components joined by colon separators; it is a pure function of the
tuple, so a second insert with the same tuple overwrites the first and the
store ends with exactly one point carrying that ID. -/
theorem c1_point_id_fnv_and_upsert_idempotent
    (store : List StoredPoint) (uid agentID speakerID : GoStr)
    (name1 name2 uuid1 uuid2 : GoStr) (e1 e2 : List ℚ) (sampleIndex : Nat)
    (ca1 ua1 ca2 ua2 : Int) :
    generatePointID uid agentID speakerID sampleIndex
      = fnv1a64 (List.intercalate [colonByte]
          [uid, agentID, speakerID, decimalBytes sampleIndex])
  ∧ qdrantInsert
        (qdrantInsert store uid agentID speakerID name1 uuid1 e1 sampleIndex ca1 ua1)
        uid agentID speakerID name2 uuid2 e2 sampleIndex ca2 ua2
      = qdrantInsert store uid agentID speakerID name2 uuid2 e2 sampleIndex ca2 ua2
  ∧ (qdrantInsert store uid agentID speakerID name2 uuid2 e2 sampleIndex ca2 ua2).countP
        (fun q => q.id == generatePointID uid agentID speakerID sampleIndex) = 1 := by
  refine ⟨?_, ?_, ?_⟩
  · simp [generatePointID, pointKeyBytes, List.intercalate, List.intersperse,
      List.append_assoc]
  · simp [qdrantInsert, upsertPoint, List.filter_append, List.filter_filter]
  · simp [qdrantInsert, upsertPoint, List.countP_append, countP_id_filter_ne]

/-- C2: the optional-filter search submits no filter exactly when all four
dimensions are empty; its condition list holds one equality predicate for
exactly the non-empty dimensions; and a point passes the filter exactly when
it agrees with every non-empty dimension, so an empty dimension never
constrains (in particular it does not select points whose field is empty). -/
theorem c2_optional_filter_conjunction (u a s n : GoStr) :
    (buildOptionalFilter u a s n = none ↔ (u = [] ∧ a = [] ∧ s = [] ∧ n = []))
  ∧ (∀ c : MatchCond,
      c ∈ buildOptionalConditions u a s n ↔
        ((c = ⟨FieldKey.uid, u⟩ ∧ u ≠ []) ∨ (c = ⟨FieldKey.agentId, a⟩ ∧ a ≠ [])
          ∨ (c = ⟨FieldKey.speakerId, s⟩ ∧ s ≠ [])
          ∨ (c = ⟨FieldKey.speakerName, n⟩ ∧ n ≠ [])))
  ∧ (∀ p : StoredPoint,
      matchesFilter p (buildOptionalFilter u a s n) = true ↔
        ((u ≠ [] → p.uid = u) ∧ (a ≠ [] → p.agentId = a)
          ∧ (s ≠ [] → p.speakerId = s) ∧ (n ≠ [] → p.speakerName = n))) := by
  refine ⟨?_, ?_, ?_⟩
  · by_cases hu : u = [] <;> by_cases ha : a = [] <;> by_cases hs : s = [] <;>
      by_cases hn : n = [] <;>
      simp [buildOptionalFilter, buildOptionalConditions, hu, ha, hs, hn]
  · intro c
    by_cases hu : u = [] <;> by_cases ha : a = [] <;> by_cases hs : s = [] <;>
      by_cases hn : n = [] <;>
      simp [buildOptionalConditions, hu, ha, hs, hn]
  · intro p
    by_cases hu : u = [] <;> by_cases ha : a = [] <;> by_cases hs : s = [] <;>
      by_cases hn : n = [] <;>
      simp [buildOptionalFilter, buildOptionalConditions, matchesFilter,
        matchesCondition, payloadField, hu, ha, hs, hn]

/-- A concrete point used to witness the filter semantics. -/
def pointW : StoredPoint :=
  { id := 0, vector := [], uid := [117], agentId := [97], speakerId := [115],
    speakerName := [], uuid := [], sampleIndex := 0, createdAt := 0, updatedAt := 0 }

/-- Witness for C2: with only uid constrained to the byte string 117, a point
carrying that uid and an empty speaker_name passes the filter. -/
theorem c2_optional_filter_conjunction_witness :
    matchesFilter pointW (buildOptionalFilter [117] [] [] []) = true :=
  ((c2_optional_filter_conjunction [117] [] [] []).2.2 pointW).mpr (by decide)

/-- The inline clamp of the conversion loops stays within minus one and one. -/
theorem clampScore_bounds (x : ℚ) : -1 ≤ clampScore x ∧ clampScore x ≤ 1 := by
  unfold clampScore
  split_ifs with h1 h2 <;> constructor <;> linarith

/-- C3: the clamp equals the standard clamp onto the interval from minus one
to one, and every returned result carries the clamped score of some stored
point with payload, lies within that interval, and is at least the
threshold; candidates whose clamped score falls below the threshold are
dropped. -/
theorem c3_confidence_clamped_and_thresholded (points : List ScoredPoint)
    (threshold : ℚ) :
    (∀ x : ℚ, clampScore x = min 1 (max (-1) x))
  ∧ (∀ r ∈ convertSearchResults points threshold,
      (∃ pt ∈ points, pt.hasPayload = true ∧ r.confidence = clampScore pt.score
          ∧ r.distance = 1 - r.confidence)
        ∧ -1 ≤ r.confidence ∧ r.confidence ≤ 1 ∧ threshold ≤ r.confidence) := by
  constructor
  · intro x
    unfold clampScore
    split_ifs with h1 h2
    · rw [max_eq_left h1.le, min_eq_right (by norm_num)]
    · rw [max_eq_right (by linarith), min_eq_left h2.le]
    · rw [max_eq_right (by linarith), min_eq_right (by linarith)]
  · intro r hr
    rw [convertSearchResults, List.mem_filterMap] at hr
    obtain ⟨pt, hpt, hf⟩ := hr
    by_cases hp : pt.hasPayload = false
    · simp [hp] at hf
    · rw [if_neg hp] at hf
      by_cases ht : clampScore pt.score < threshold
      · simp [ht] at hf
      · rw [if_neg ht] at hf
        obtain ⟨rfl⟩ := Option.some.inj hf
        refine ⟨⟨pt, hpt, by simpa using hp, rfl, rfl⟩, ?_, ?_, by linarith⟩
        · exact (clampScore_bounds pt.score).1
        · exact (clampScore_bounds pt.score).2

/-- A concrete scored point used to witness the conversion. -/
def scoredW : ScoredPoint :=
  { hasPayload := true, speakerId := [115], speakerName := [110],
    sampleIndex := 0, score := 2 }

/-- The result the conversion produces for scoredW: the out-of-range score
two is clamped to one. -/
def resultW : SearchResult :=
  { speakerId := [115], speakerName := [110], confidence := 1, distance := 0,
    sampleIndex := 0 }

/-- Witness for C3: converting a single point scored two at threshold one
half yields a result whose confidence is the clamp of two, lies in the
interval, and meets the threshold. -/
theorem c3_confidence_clamped_and_thresholded_witness :
    (∃ pt ∈ [scoredW], pt.hasPayload = true ∧ resultW.confidence = clampScore pt.score
        ∧ resultW.distance = 1 - resultW.confidence)
      ∧ -1 ≤ resultW.confidence ∧ resultW.confidence ≤ 1
      ∧ (1 / 2 : ℚ) ≤ resultW.confidence := by
  have hlist : convertSearchResults [scoredW] (1 / 2) = [resultW] := by
    norm_num [convertSearchResults, clampScore, scoredW, resultW,
      List.filterMap_cons]
  exact (c3_confidence_clamped_and_thresholded [scoredW] (1 / 2)).2 resultW
    (hlist ▸ List.mem_singleton.mpr rfl)

/-- The rational square-root evaluator used by concrete instances: it returns
the true square root at the only input where it is consulted. -/
def sqrtFour : ℚ → ℚ := fun q => if q = 4 then 2 else 0

/-- Counterexample to C4: the strict-filter search of the verify path
submits the raw embedding; on the concrete embedding with components two and
zero the submitted vector differs from its client-side L2 normalisation. -/
theorem c4_counterexample_strict_not_normalised :
    (mkStrictQuery [117] [97] [115] [2, 0] 1).queryVector = [2, 0]
  ∧ normalizeVector sqrtFour [2, 0] = [1, 0]
  ∧ ([2, 0] : List ℚ) ≠ [1, 0] := by
  refine ⟨rfl, ?_, by norm_num⟩
  norm_num [normalizeVector, sumSquares, sqrtFour]

/-- C4 as amended: only the optional-filter search (the identify path)
normalises the query client-side before submission; the strict-filter search
(the verify path) submits the query embedding unchanged. -/
theorem c4_amended_only_optional_normalises (sqrtQ : ℚ → ℚ)
    (u a s n u2 a2 s2 : GoStr) (e e2 : List ℚ) (k k2 : Nat) :
    (mkOptionalQuery sqrtQ u a s n e k).queryVector = normalizeVector sqrtQ e
  ∧ (mkStrictQuery u2 a2 s2 e2 k2).queryVector = e2 :=
  ⟨rfl, rfl⟩

/-- Sum of squares after dividing every component by a constant. In the
rationals division by zero is zero, so the identity holds unconditionally. -/
theorem sumSquares_map_div (v : List ℚ) (c : ℚ) :
    sumSquares (v.map (fun y => y / c)) = sumSquares v / c ^ 2 := by
  induction v with
  | nil => simp [sumSquares]
  | cons x xs ih =>
      have hx : sumSquares (x :: xs) = x * x + sumSquares xs := by
        simp [sumSquares]
      have hy : sumSquares ((x :: xs).map (fun y => y / c))
          = (x / c) * (x / c) + sumSquares (xs.map (fun y => y / c)) := by
        simp [sumSquares]
      rw [hy, ih, hx, div_mul_div_comm, show c * c = c ^ 2 by ring,
        div_add_div_same]

/-- C10: normalizeVector is total and guarded: it always preserves length;
when the computed norm is zero the input is returned unchanged; otherwise
every component is divided by the norm; and whenever the square-root
evaluator is exact on a non-zero sum of squares, the output has unit sum of
squares. -/
theorem c10_normalize_total_guarded (sqrtQ : ℚ → ℚ) (v : List ℚ) :
    (normalizeVector sqrtQ v).length = v.length
  ∧ (sqrtQ (sumSquares v) = 0 → normalizeVector sqrtQ v = v)
  ∧ (sqrtQ (sumSquares v) ≠ 0 →
      normalizeVector sqrtQ v = v.map (fun x => x / sqrtQ (sumSquares v)))
  ∧ (sqrtQ (sumSquares v) ^ 2 = sumSquares v → sumSquares v ≠ 0 →
      sumSquares (normalizeVector sqrtQ v) = 1) := by
  refine ⟨?_, ?_, ?_, ?_⟩
  · by_cases h : sqrtQ (sumSquares v) = 0 <;> simp [normalizeVector, h]
  · intro h
    simp [normalizeVector, h]
  · intro h
    simp [normalizeVector, h]
  · intro hsq hs
    have hn : sqrtQ (sumSquares v) ≠ 0 := by
      intro h0
      rw [h0] at hsq
      simp at hsq
      exact hs hsq.symm
    rw [show normalizeVector sqrtQ v = v.map (fun x => x / sqrtQ (sumSquares v)) by
        simp [normalizeVector, hn],
      sumSquares_map_div, hsq, div_self hs]

/-- Witness for C10: on the embedding with components two and zero the norm
is two, and the normalised vector has unit sum of squares. -/
theorem c10_normalize_total_guarded_witness :
    sumSquares (normalizeVector sqrtFour [2, 0]) = 1 :=
  (c10_normalize_total_guarded sqrtFour [2, 0]).2.2.2
    (by norm_num [sqrtFour, sumSquares]) (by norm_num [sumSquares])

/-- The classifier used by the C5 counterexample: only the frame starting at
zero is speech. -/
def vadFirstFrameOnly : Nat → Nat → Bool := fun s _ => s == 0

/-- Counterexample to C5: at sample rate 15 with hop 1 on a four-sample
buffer whose only speech frame is the first, the source truncates the edge
width to one sample and returns two samples, while the claimed formula
rounds the edge width to two samples and would return three. -/
theorem c5_counterexample_round_vs_truncate :
    filterSilenceWithVADKeepEdges vadFirstFrameOnly 1 15 ([10, 20, 30, 40] : List Nat)
      = [10, 20]
  ∧ specEdgeSamples 15 = 2
  ∧ (([10, 20, 30, 40] : List Nat).drop (0 - specEdgeSamples 15)).take
      (min (1 + specEdgeSamples 15) 4 - (0 - specEdgeSamples 15)) = [10, 20, 30]
  ∧ ([10, 20] : List Nat) ≠ [10, 20, 30] := by
  refine ⟨by decide, by decide, by decide, by decide⟩

/-- C5 as amended: replacing the rounded edge width by the truncated one
(floor of sampleRate over 10), the function returns an empty buffer when no
frame is speech, otherwise the input slice from the first speech frame start
minus the edge width (clamped at zero) to the last speech frame end plus the
edge width (clamped at the length); the output never exceeds the input in
length. -/
theorem c5_amended_trim_keep_edges {α : Type} (vad : Nat → Nat → Bool)
    (hop sampleRate : Nat) (audioData : List α) :
    (filterSilenceWithVADKeepEdges vad hop sampleRate audioData).length
        ≤ audioData.length
  ∧ ((∀ f ∈ vadClassifyFrames vad hop audioData.length, f.isSpeech = false) →
      filterSilenceWithVADKeepEdges vad hop sampleRate audioData = [])
  ∧ (∀ ff lf,
      firstSpeechFrame (vadClassifyFrames vad hop audioData.length) = some ff →
      lastSpeechFrame (vadClassifyFrames vad hop audioData.length) = some lf →
      filterSilenceWithVADKeepEdges vad hop sampleRate audioData =
        (audioData.drop (ff.startIdx - sampleRate / 10)).take
          (min (lf.endIdx + sampleRate / 10) audioData.length
            - (ff.startIdx - sampleRate / 10))) := by
  refine ⟨?_, ?_, ?_⟩
  · rcases h1 : firstSpeechFrame (vadClassifyFrames vad hop audioData.length)
        with _ | ff <;>
      rcases h2 : lastSpeechFrame (vadClassifyFrames vad hop audioData.length)
        with _ | lf <;>
      simp only [filterSilenceWithVADKeepEdges, h1, h2, List.length_nil,
        List.length_take, List.length_drop, Nat.zero_le]
    omega
  · intro h
    have h1 : firstSpeechFrame (vadClassifyFrames vad hop audioData.length)
        = none := by
      rw [firstSpeechFrame, List.find?_eq_none]
      intro x hx
      simp [h x hx]
    simp [filterSilenceWithVADKeepEdges, h1]
  · intro ff lf h1 h2
    simp [filterSilenceWithVADKeepEdges, h1, h2]

/-- Witness for C5 as amended: a two-sample buffer with no speech frames is
trimmed to the empty buffer. -/
theorem c5_amended_trim_keep_edges_witness :
    filterSilenceWithVADKeepEdges (fun _ _ => false) 1 16000 ([1, 2] : List ℚ)
      = [] :=
  (c5_amended_trim_keep_edges (fun _ _ => false) 1 16000 [1, 2]).2.1 (by decide)

/-- C6: once a session is finished, accept and finish both fail with the
error message stream already finished (finish also leaves the state
untouched), and close is idempotent, always succeeds, and leaves the
accumulator released. -/
theorem c6_finished_rejects_and_close_idempotent :
    (∀ (chunk : List ℚ) (s : StreamingState), s.isFinished = true →
        acceptAudio chunk s = Except.error "stream already finished")
  ∧ (∀ (r : Bool) (e : List ℚ) (so : Except String (List SearchResult))
        (mt st : ℚ) (s : StreamingState), s.isFinished = true →
        finishAndIdentify r e so mt st s
          = (Except.error "stream already finished", s))
  ∧ (∀ s : StreamingState, closeStream (closeStream s) = closeStream s
        ∧ (closeStream s).streamHeld = false) := by
  refine ⟨?_, ?_, ?_⟩
  · intro chunk s h
    simp [acceptAudio, h]
  · intro r e so mt st s h
    simp [finishAndIdentify, h]
  · intro s
    constructor
    · by_cases h : s.streamHeld = true <;> simp [closeStream, cleanupStream, h]
    · by_cases h : s.streamHeld = true <;> simp [closeStream, cleanupStream, h]

/-- A finished session state used by the C6 witness. -/
def finishedW : StreamingState :=
  { streamHeld := true, isFinished := true, deleteCount := 1 }

/-- Witness for C6 on a concrete finished session. -/
theorem c6_finished_rejects_and_close_idempotent_witness :
    acceptAudio [] finishedW = Except.error "stream already finished"
  ∧ finishAndIdentify true [1] (Except.ok []) 1 0 finishedW
      = (Except.error "stream already finished", finishedW)
  ∧ closeStream (closeStream finishedW) = closeStream finishedW :=
  ⟨c6_finished_rejects_and_close_idempotent.1 [] finishedW rfl,
    c6_finished_rejects_and_close_idempotent.2.1 true [1] (Except.ok []) 1 0
      finishedW rfl,
    (c6_finished_rejects_and_close_idempotent.2.2 finishedW).1⟩

/-- A released, finished session absorbs every further operation. -/
theorem applySessionOp_fixed (s : StreamingState) (hh : s.streamHeld = false)
    (hf : s.isFinished = true) (op : SessionOp) : applySessionOp s op = s := by
  rcases op with _chunk | ⟨r, e, so, mt, st⟩ | _
  · rfl
  · simp [applySessionOp, finishAndIdentify, hf]
  · simp [applySessionOp, closeStream, cleanupStream, hh]

/-- A released, finished session absorbs every further operation sequence. -/
theorem applySessionOps_fixed (s : StreamingState) (hh : s.streamHeld = false)
    (hf : s.isFinished = true) (ops : List SessionOp) :
    applySessionOps s ops = s := by
  induction ops with
  | nil => rfl
  | cons op ops ih =>
      rw [applySessionOps, List.foldl_cons, applySessionOp_fixed s hh hf op]
      exact ih

/-- C7: from an open session holding its accumulator, the first finish call
releases the handle exactly once on every path, success or error: afterwards
the handle is gone, the session is finished, the delete count rose by
exactly one, and no further sequence of accept, finish or close operations
changes the state, so the handle is never released twice. -/
theorem c7_finish_releases_exactly_once (r : Bool) (e : List ℚ)
    (so : Except String (List SearchResult)) (mt st : ℚ) (s : StreamingState)
    (hheld : s.streamHeld = true) (hopen : s.isFinished = false) :
    ((finishAndIdentify r e so mt st s).2.streamHeld = false
      ∧ (finishAndIdentify r e so mt st s).2.isFinished = true
      ∧ (finishAndIdentify r e so mt st s).2.deleteCount = s.deleteCount + 1)
  ∧ ∀ ops : List SessionOp,
      applySessionOps (finishAndIdentify r e so mt st s).2 ops
        = (finishAndIdentify r e so mt st s).2 := by
  have h2 : (finishAndIdentify r e so mt st s).2
      = { streamHeld := false, isFinished := true,
          deleteCount := s.deleteCount + 1 } := by
    unfold finishAndIdentify
    rw [if_neg (by simp [hopen]), if_neg (by simp [hheld])]
    rcases r with _ | _
    · simp [cleanupStream, hheld]
    · by_cases he : e.length = 0
      · simp [he, cleanupStream, hheld]
      · rcases so with msg | results
        · simp [he, cleanupStream, hheld]
        · rcases results with _ | ⟨b, rest⟩ <;> simp [he, cleanupStream, hheld]
  rw [h2]
  refine ⟨⟨rfl, rfl, rfl⟩, ?_⟩
  intro ops
  exact applySessionOps_fixed _ rfl rfl ops

/-- An open session state used by the C7 witness. -/
def openW : StreamingState :=
  { streamHeld := true, isFinished := false, deleteCount := 0 }

/-- Witness for C7: finishing a concrete open session on the insufficient
audio error path still releases the handle exactly once. -/
theorem c7_finish_releases_exactly_once_witness :
    (finishAndIdentify false [] (Except.ok []) 1 0 openW).2.streamHeld = false
  ∧ (finishAndIdentify false [] (Except.ok []) 1 0 openW).2.deleteCount = 1 := by
  have h := c7_finish_releases_exactly_once false [] (Except.ok []) 1 0 openW
    rfl rfl
  exact ⟨h.1.1, h.1.2.2⟩

/-- Filtering a replicated list under a predicate its element satisfies
keeps the whole list. -/
theorem filter_replicate_of_pos {α : Type} (n : Nat) (a : α) (p : α → Bool)
    (h : p a = true) : (List.replicate n a).filter p = List.replicate n a := by
  induction n with
  | zero => rfl
  | succ n ih => simp [List.replicate_succ, List.filter_cons, h, ih]

/-- The matching point replicated by the C8 counterexample store. -/
def c8pt : StoredPoint :=
  { id := 7, vector := [], uid := [117], agentId := [97], speakerId := [115],
    speakerName := [110], uuid := [118], sampleIndex := 0, createdAt := 0,
    updatedAt := 0 }

/-- A store holding ten thousand and one points of the same speaker. -/
def c8store : List StoredPoint := List.replicate 10001 c8pt

/-- Counterexample to C8: with ten thousand and one matching points stored,
the bounded scroll reports ten thousand, so the enrolment writes sample
index ten thousand although the current matching count is ten thousand and
one. -/
theorem c8_counterexample_count_capped :
    getSpeakerSampleCount c8store [117] [97] [115] = 10000
  ∧ (c8store.filter (fun p =>
      matchesFilter p (some (buildStrictConditions [117] [97] [115])))).length
      = 10001
  ∧ registerSpeaker 1 (Except.ok [1]) true true c8store
        [117] [97] [115] [110] [118] 0
      = Except.ok (qdrantInsert c8store [117] [97] [115] [110] [118] [1]
          10000 0 0)
  ∧ (10000 : Nat) ≠ 10001 := by
  have hmatch : (fun p => matchesFilter p
      (some (buildStrictConditions [117] [97] [115]))) c8pt = true := by decide
  have hfilter : c8store.filter (fun p =>
      matchesFilter p (some (buildStrictConditions [117] [97] [115])))
      = List.replicate 10001 c8pt :=
    filter_replicate_of_pos 10001 c8pt _ hmatch
  have hcount : getSpeakerSampleCount c8store [117] [97] [115] = 10000 := by
    rw [getSpeakerSampleCount, hfilter, List.take_replicate,
      List.length_replicate]
    omega
  refine ⟨hcount, ?_, ?_, by norm_num⟩
  · rw [hfilter, List.length_replicate]
  · simp [registerSpeaker, hcount]

/-- C8 as amended: when enrolment passes validation and the insert RPC
succeeds, the sample index written is the bounded-scroll count (the number
of matching stored points capped at ten thousand) when the count RPC
succeeds, and zero when it fails, with the insert proceeding either way. -/
theorem c8_amended_sample_index (embeddingDim : Nat) (embedding : List ℚ)
    (countRpcOk : Bool) (store : List StoredPoint)
    (uid agentID speakerID speakerName uuid : GoStr) (now : Int)
    (hu : uid ≠ []) (ha : agentID ≠ []) (huu : uuid ≠ [])
    (hdim : embedding.length = embeddingDim) :
    registerSpeaker embeddingDim (Except.ok embedding) countRpcOk true store
        uid agentID speakerID speakerName uuid now
      = Except.ok (qdrantInsert store uid agentID speakerID speakerName uuid
          embedding
          (if countRpcOk = true then
            getSpeakerSampleCount store uid agentID speakerID
          else 0) now now)
  ∧ getSpeakerSampleCount store uid agentID speakerID
      = min 10000 (store.filter (fun p =>
          matchesFilter p
            (some (buildStrictConditions uid agentID speakerID)))).length := by
  constructor
  · simp [registerSpeaker, hu, ha, huu, hdim]
  · simp [getSpeakerSampleCount, List.length_take]

/-- Witness for C8 as amended: on an empty store with a failed count RPC,
enrolment proceeds and writes sample index zero. -/
theorem c8_amended_sample_index_witness :
    registerSpeaker 1 (Except.ok [1]) false true [] [117] [97] [115] [110]
        [118] 0
      = Except.ok (qdrantInsert [] [117] [97] [115] [110] [118] [1] 0 0 0) := by
  have h := (c8_amended_sample_index 1 [1] false [] [117] [97] [115] [110]
    [118] 0 (by decide) (by decide) (by decide) rfl).1
  simpa using h

/-- Counterexample to C9: when the store scroll RPC behind the list
operation fails, the manager swallows the error and the handler answers
with a successful 200 response carrying an empty speaker list, instead of
surfacing a 500 or an error. -/
theorem c9_counterexample_list_swallows_store_failure :
    managerGetAllSpeakers (Except.error "failed to scroll points") = []
  ∧ handleGetAllSpeakers [117] [97] (Except.error "failed to scroll points")
      = ListResponse.okResponse [117] [97] [] 0 := by
  exact ⟨rfl, rfl⟩

/-- C9 as amended: every public operation except list and stats surfaces a
store RPC failure as an error with no silent recovery: enrolment fails on a
failed upsert, identification and verification fail on a failed search, and
both delete operations fail on a failed delete. The list operation converts
a failed scroll into a successful 200 response with an empty speaker list,
and the stats operation, which shares that scroll, returns the default zero
statistics with no error channel at all. -/
theorem c9_amended_store_failures (uidReq agentID : GoStr)
    (msg2 msg3 msg4 msg5 msg6 msg7 : String)
    (embeddingDim : Nat) (embedding : List ℚ) (countRpcOk : Bool)
    (store : List StoredPoint) (u a s n uu : GoStr) (now : Int)
    (t vt : ℚ) (thresholdArg : Option ℚ)
    (info : Except String SpeakerInfo)
    (statsDim : Nat) (statsThreshold : ℚ) (statsNow : Int)
    (hu : u ≠ []) (ha : a ≠ []) (huu : uu ≠ [])
    (hdim : embedding.length = embeddingDim) (huid : uidReq ≠ []) :
    registerSpeaker embeddingDim (Except.ok embedding) countRpcOk false store
        u a s n uu now
      = Except.error "failed to insert to vector database"
  ∧ identifySpeaker t thresholdArg (Except.ok embedding) (Except.error msg2)
      = Except.error "failed to search in vector database"
  ∧ verifySpeaker vt u s (Except.ok embedding) (Except.error msg3) info
      = Except.error "failed to search in vector database"
  ∧ managerDeleteSpeaker u (Except.error msg4)
      = Except.error "failed to delete from vector database"
  ∧ managerDeleteSpeakerByUUID u uu (Except.error msg5)
      = Except.error "failed to delete from vector database"
  ∧ handleGetAllSpeakers uidReq agentID (Except.error msg6)
      = ListResponse.okResponse uidReq agentID [] 0
  ∧ getDatabaseStats statsDim statsThreshold statsNow (Except.error msg7)
      = { totalSpeakers := 0, totalSamples := 0, embeddingDim := statsDim,
          threshold := statsThreshold, version := "2.0.0",
          updatedAt := statsNow } := by
  refine ⟨?_, ?_, ?_, ?_, ?_, ?_, ?_⟩
  · simp [registerSpeaker, hu, ha, huu, hdim]
  · rfl
  · simp [verifySpeaker, hu]
  · simp [managerDeleteSpeaker, hu]
  · simp [managerDeleteSpeakerByUUID, hu, huu]
  · simp [handleGetAllSpeakers, huid, managerGetAllSpeakers]
  · rfl

/-- Witness for C9 as amended on concrete inputs. -/
theorem c9_amended_store_failures_witness :
    registerSpeaker 1 (Except.ok [1]) true false [] [117] [97] [115] [110]
        [118] 0
      = Except.error "failed to insert to vector database"
  ∧ identifySpeaker 1 none (Except.ok [1]) (Except.error "scroll failed")
      = Except.error "failed to search in vector database"
  ∧ verifySpeaker 1 [117] [115] (Except.ok [1]) (Except.error "rpc failed")
        (Except.error "rpc failed")
      = Except.error "failed to search in vector database"
  ∧ managerDeleteSpeaker [117] (Except.error "rpc failed")
      = Except.error "failed to delete from vector database"
  ∧ managerDeleteSpeakerByUUID [117] [118] (Except.error "rpc failed")
      = Except.error "failed to delete from vector database"
  ∧ handleGetAllSpeakers [117] [97] (Except.error "scroll failed")
      = ListResponse.okResponse [117] [97] [] 0
  ∧ getDatabaseStats 1 1 0 (Except.error "scroll failed")
      = { totalSpeakers := 0, totalSamples := 0, embeddingDim := 1,
          threshold := 1, version := "2.0.0", updatedAt := 0 } := by
  have h := c9_amended_store_failures [117] [97] "scroll failed" "rpc failed"
    "rpc failed" "rpc failed" "scroll failed" "scroll failed"
    1 [1] true [] [117] [97] [115] [110] [118] 0 1 1 none
    (Except.error "rpc failed") 1 1 0
    (by decide) (by decide) (by decide) rfl (by decide)
  exact ⟨h.1, h.2.1, h.2.2.1, h.2.2.2.1, h.2.2.2.2.1, h.2.2.2.2.2.1,
    h.2.2.2.2.2.2⟩

end VoiceServer
